import Mathlib

set_option maxRecDepth 8192

/-!
Verification of the GreenLane telemetry ingestion pipeline.

This file gives a shallow embedding of the Go source of the repository
(`services/ingestion/main.go` for the Ingestion Gateway, and the mock grid
pricing service `handlePricing`) and proves or refutes the behavioural
claims made by the specification.

Modelling conventions:
- Go float64 fields are modelled as rationals; the claims settled here do
  not depend on binary floating-point rounding, only on the discrete control
  flow of the code.
- The outcomes of the external Redis / Kafka / gRPC-send operations are
  environment choices; they are modelled as explicit Boolean failure flags
  attached to each received frame.
- `time.Now().UnixMilli()` values are environment inputs threaded through
  explicitly.
-/

/-- The shared secret, constant `apiTokenValue` in `main.go`. -/
def apiTokenValue : String := "greenlane-secret-token"

/-- The metadata key checked by `validateToken` in `main.go`. -/
def xApiTokenKey : String := "x-api-token"

/-- The geospatial index key used by `writeToRedis` in `main.go`. -/
def fleetLocationsKey : String := "fleet:locations"

/-- The derived metadata-hash key `car:{id}` used by `writeToRedis`. -/
def carHashKey (id : String) : String := "car:" ++ id

/-- The proto message `CarStatus` (one telemetry frame), as read by
`StreamTelemetry`.  Numeric float fields are modelled as rationals. -/
structure CarStatus where
  carId : String
  latitude : ℚ
  longitude : ℚ
  batteryLevel : ℚ
  velocity : ℚ
  timestamp : ℤ
deriving DecidableEq

/-- Modelled from the spec: the acknowledgment status enum (§3).  The proto
file `proto/fleet.proto` is not part of the sources; the gateway only ever
uses the constant `BookingStatus_BOOKING_UNKNOWN`, the other values exist so
that constancy of the status is a non-trivial statement. -/
inductive BookingStatus where
  | BOOKING_UNKNOWN
  | BOOKING_CONFIRMED
  | BOOKING_REJECTED
deriving DecidableEq

/-- The proto message `BookingResponse`, the per-frame acknowledgment built
at lines 135-141 of `main.go`. -/
structure BookingResponse where
  bookingId : String
  carId : String
  status : BookingStatus
  message : String
  timestamp : ℤ
deriving DecidableEq

/-- A Kafka message as built by `emitToKafka`: a key and a value (the
payload bytes, here a string). -/
structure KafkaMessage where
  key : String
  value : String
deriving DecidableEq

/-- The metadata hash written by the `HSET` call in `writeToRedis`: exactly
the three fields battery, velocity, timestamp. -/
structure CarMeta where
  battery : ℚ
  velocity : ℚ
  timestamp : ℤ
deriving DecidableEq

/-- The state of the external Redis store visible to the gateway: the
geospatial index (`GEOADD key (longitude, latitude) member`) and the
string-keyed metadata hashes (`HSET car:{id} ...`). -/
structure RedisState where
  geo : String → String → Option (ℚ × ℚ)
  hashes : String → Option CarMeta

/-- A Redis store with no entries. -/
def initRedis : RedisState := { geo := fun _ _ => none, hashes := fun _ => none }

/-- The error value `writeToRedis` can return (the wrapped GEOADD error of
line 162 of `main.go`). -/
inductive RedisErr where
  | geoAddFailed
deriving DecidableEq

/- ----------------------------------------------------------------------
Decimal formatting, modelling Go `fmt.Sprintf` verbs `%d` and `%.Nf`.
---------------------------------------------------------------------- -/

/-- One decimal digit as a character. The default arm is unreachable for
arguments below ten. -/
def digitChar (d : Nat) : Char :=
  if d = 0 then '0'
  else if d = 1 then '1'
  else if d = 2 then '2'
  else if d = 3 then '3'
  else if d = 4 then '4'
  else if d = 5 then '5'
  else if d = 6 then '6'
  else if d = 7 then '7'
  else if d = 8 then '8'
  else if d = 9 then '9'
  else '0'

/-- Decimal digits of a natural number, most significant first; structural
recursion on an explicit fuel so that terms reduce inside the kernel. -/
def natDigitsAux : Nat → Nat → List Char
  | 0, _ => []
  | fuel + 1, n =>
    if n < 10 then [digitChar n]
    else natDigitsAux fuel (n / 10) ++ [digitChar (n % 10)]

/-- Decimal rendering of a natural number (`fmt` integer formatting). -/
def fmtNat (n : Nat) : String := String.mk (natDigitsAux (n + 1) n)

/-- Go `fmt.Sprintf("%d", i)` for a signed integer. -/
def fmtInt (i : ℤ) : String := (if i < 0 then "-" else "") ++ fmtNat i.natAbs

/-- Rounding half away from zero of the non-negative rational `n / d`,
computed with natural-number arithmetic so that terms reduce inside the
kernel. -/
def roundAwayNat (n d : Nat) : Nat := (2 * n + d) / (2 * d)

/-- Go `math.Round`: round half away from zero. -/
def goRound (q : ℚ) : ℤ :=
  if q.num < 0 then -(roundAwayNat q.num.natAbs q.den : ℤ)
  else (roundAwayNat q.num.natAbs q.den : ℤ)

/-- Left-pad a digit list with zeros to a given width. -/
def padZeros (l : List Char) (n : Nat) : List Char :=
  List.replicate (n - l.length) '0' ++ l

/-- Go `fmt.Sprintf("%.Nf", q)`: fixed-point rendering with `prec` digits
after the decimal point, rounding half away from zero at the last digit.
The magnitude is `roundAwayNat` of `|q| * 10^prec` computed on the raw
numerator/denominator (rounding is invariant under the common factor), so
that the definition reduces inside the kernel.  A negative value that
rounds to all zeros is rendered unsigned, the one (claim-irrelevant) spot
where this differs from Go, which prints a signed zero. -/
def fmtFixed (prec : Nat) (q : ℚ) : String :=
  let a : Nat := roundAwayNat (q.num.natAbs * 10 ^ prec) q.den
  let ip : Nat := a / 10 ^ prec
  let fp : Nat := a % 10 ^ prec
  (if q.num < 0 ∧ a ≠ 0 then "-" else "")
    ++ fmtNat ip ++ "." ++ String.mk (padZeros (natDigitsAux (fp + 1) fp) prec)

/- ----------------------------------------------------------------------
The gateway operations of `main.go`.
---------------------------------------------------------------------- -/

/-- `writeToRedis` (lines 151-173 of `main.go`): a GEOADD under
`fleet:locations`, then — only if the GEOADD succeeded — an HSET under
`car:{id}` whose result object is discarded without an error check.  The
`geoFail`/`hsetFail` flags are the environment's choice of outcome for the
two Redis operations; a failed operation leaves the store unchanged.  The
returned error mirrors the Go return value: the wrapped GEOADD error or
nil. -/
def writeToRedis (st : RedisState) (c : CarStatus) (geoFail hsetFail : Bool) :
    RedisState × Option RedisErr :=
  if geoFail then (st, some RedisErr.geoAddFailed)
  else
    let st1 : RedisState :=
      { st with
        geo := fun k m =>
          if k = fleetLocationsKey then
            if m = c.carId then some (c.longitude, c.latitude) else st.geo k m
          else st.geo k m }
    let st2 : RedisState :=
      if hsetFail then st1
      else
        { st1 with
          hashes := fun k =>
            if k = carHashKey c.carId then
              some { battery := c.batteryLevel, velocity := c.velocity,
                     timestamp := c.timestamp }
            else st1.hashes k }
    (st2, none)

/-- The JSON-ish payload string built by `emitToKafka` (line 179 of
`main.go`) by plain `fmt.Sprintf` with no escaping of the car id. -/
def emitValue (c : CarStatus) : String :=
  "\x7b\"car_id\":\"" ++ c.carId
    ++ "\",\"lat\":" ++ fmtFixed 6 c.latitude
    ++ ",\"lon\":" ++ fmtFixed 6 c.longitude
    ++ ",\"battery\":" ++ fmtFixed 2 c.batteryLevel
    ++ ",\"velocity\":" ++ fmtFixed 2 c.velocity
    ++ ",\"timestamp\":" ++ fmtInt c.timestamp
    ++ ",\"event_type\":\"telemetry\"\x7d"

/-- `emitToKafka` (lines 176-191): the message handed to
`kafkaWriter.WriteMessages`, keyed by the car id. -/
def emitToKafka (c : CarStatus) : KafkaMessage :=
  { key := c.carId, value := emitValue c }

/-- The environment of one loop iteration of `StreamTelemetry`: the two
`time.Now().UnixMilli()` readings (line 136 and line 140) and the outcomes
of the four external operations touched while processing one frame. -/
structure FrameEnv where
  now : ℤ
  now2 : ℤ
  geoFail : Bool
  hsetFail : Bool
  kafkaFail : Bool
  sendFail : Bool
deriving DecidableEq

/-- The acknowledgment built at lines 135-141 of `main.go` for a received
frame. -/
def mkAck (c : CarStatus) (env : FrameEnv) : BookingResponse :=
  { bookingId := "ack-" ++ c.carId ++ "-" ++ fmtInt env.now
    carId := c.carId
    status := BookingStatus.BOOKING_UNKNOWN
    message := "Telemetry received"
    timestamp := env.now2 }

/-- One iteration of the `StreamTelemetry` receive loop on a frame: the
Redis dual write (errors logged and dropped), the Kafka emit (error logged
and dropped), and the acknowledgment.  Returns the Redis state after the
iteration, the Kafka message whose write was attempted, and the response
passed to `stream.Send`. -/
def processFrame (st : RedisState) (c : CarStatus) (env : FrameEnv) :
    RedisState × KafkaMessage × BookingResponse :=
  ((writeToRedis st c env.geoFail env.hsetFail).1, emitToKafka c, mkAck c env)

/-- One `stream.Recv()` outcome: a decoded frame together with its
environment, or a receive error (peer disconnect / transport failure). -/
inductive StreamEvent where
  | frame (c : CarStatus) (env : FrameEnv)
  | recvErr
deriving DecidableEq

/-- Everything observable about one streaming session: the Redis state when
the handler returns, the Kafka messages whose write was attempted, and the
acknowledgments passed to `stream.Send`, in order. -/
structure SessionTrace where
  redis : RedisState
  published : List KafkaMessage
  acks : List BookingResponse

/-- The `StreamTelemetry` receive loop (lines 113-147 of `main.go`) over a
finite trace of receive outcomes: a receive error returns immediately; a
frame is processed unconditionally (there is no validation branch in the
source), and a failed `stream.Send` returns after the current frame. -/
def streamLoop (st : RedisState) : List StreamEvent → SessionTrace
  | [] => { redis := st, published := [], acks := [] }
  | StreamEvent.recvErr :: _ => { redis := st, published := [], acks := [] }
  | StreamEvent.frame c env :: rest =>
    let p := processFrame st c env
    if env.sendFail then { redis := p.1, published := [p.2.1], acks := [p.2.2] }
    else
      let t := streamLoop p.1 rest
      { redis := t.redis, published := p.2.1 :: t.published,
        acks := p.2.2 :: t.acks }

/- ----------------------------------------------------------------------
Authentication (`validateToken`, `authStreamInterceptor`).
---------------------------------------------------------------------- -/

/-- The gRPC status codes relevant to the gateway. -/
inductive GrpcCode where
  | ok
  | unauthenticated
deriving DecidableEq

/-- The three error values `validateToken` can produce (lines 210-226 of
`main.go`); every one carries `codes.Unauthenticated`. -/
inductive AuthErr where
  | missingMetadata
  | missingToken
  | invalidToken
deriving DecidableEq

/-- The gRPC code of each `validateToken` error: always
`codes.Unauthenticated`. -/
def authErrCode : AuthErr → GrpcCode := fun _ => GrpcCode.unauthenticated

/-- `validateToken` (lines 210-226): incoming metadata is an optional
multimap from keys to value lists (`metadata.FromIncomingContext`); only
the first `x-api-token` value is compared against the shared secret. -/
def validateToken (md : Option (String → List String)) : Option AuthErr :=
  match md with
  | none => some AuthErr.missingMetadata
  | some m =>
    match m xApiTokenKey with
    | [] => some AuthErr.missingToken
    | t :: _ => if t = apiTokenValue then none else some AuthErr.invalidToken

/-- The observable outcome of one streaming session as mediated by
`authStreamInterceptor`. -/
structure SessionResult where
  handlerRan : Bool
  authError : Option AuthErr
  trace : SessionTrace

/-- `authStreamInterceptor` (lines 202-207): validate the token once from
the session metadata; on failure return the error without invoking the
handler, otherwise run the `StreamTelemetry` handler on the session's
receive trace. -/
def authStreamInterceptor (md : Option (String → List String))
    (st : RedisState) (events : List StreamEvent) : SessionResult :=
  match validateToken md with
  | some e =>
    { handlerRan := false, authError := some e
      trace := { redis := st, published := [], acks := [] } }
  | none =>
    { handlerRan := true, authError := none, trace := streamLoop st events }

/- ----------------------------------------------------------------------
The pricing oracle (`handlePricing` in the mock grid service).
---------------------------------------------------------------------- -/

/-- The `PriceResponse` JSON structure of the mock grid service. -/
structure PriceResponse where
  timestamp : ℤ
  pricePerKwh : ℚ
  gridLoad : String
  energySource : String
  hour : ℤ
deriving DecidableEq

/-- `handlePricing` of the mock grid service.  `hour` is `time.Now().Hour()`
and `nowMs` is `time.Now().UnixMilli()`; `sinVal` stands for the value of
`math.Sin((hour-6)*π/12)`, abstracted as a rational parameter because the
claims about this handler hold for every value of the sine factor (float
arithmetic is modelled over ℚ). -/
def handlePricing (hour : ℤ) (sinVal : ℚ) (nowMs : ℤ) : PriceResponse :=
  let basePricePerKwh : ℚ := 0.25
  let amplitude : ℚ := 0.15
  let pricePerKwh : ℚ := basePricePerKwh + amplitude * sinVal
  let gridLoad : String :=
    if pricePerKwh > 0.35 then "High"
    else if pricePerKwh > 0.25 then "Medium"
    else "Low"
  let energySource : String :=
    if 8 ≤ hour ∧ hour ≤ 18 then "Solar"
    else if 19 ≤ hour ∧ hour ≤ 22 then "Wind"
    else "Grid"
  let price2 : ℚ := if energySource = "Solar" then pricePerKwh * 0.9 else pricePerKwh
  { timestamp := nowMs
    pricePerKwh := (goRound (price2 * 100) : ℚ) / 100
    gridLoad := gridLoad
    energySource := energySource
    hour := hour }

/- ----------------------------------------------------------------------
A JSON checker for flat objects, to formalise "the published value is a
valid JSON object with exactly these fields".  The grammar covered is the
one the gateway can possibly emit: one object whose member values are
strings or numbers (no nesting, no booleans, no null).  Numbers are lexed
leniently as runs of number characters; the gateway's formatter only
produces well-formed JSON numbers, and every claim settled with this
checker turns on string syntax, not number syntax.
---------------------------------------------------------------------- -/

/-- The two member-value shapes of the emitted payload.  Numbers keep their
raw rendering. -/
inductive JVal where
  | str : String → JVal
  | num : String → JVal
deriving DecidableEq

def openBrace : Char := Char.ofNat 123

def closeBrace : Char := Char.ofNat 125

/-- JSON insignificant whitespace. -/
def isWs (c : Char) : Bool :=
  decide (c = ' ') || decide (c = Char.ofNat 9) || decide (c = Char.ofNat 10)
    || decide (c = Char.ofNat 13)

/-- Characters a (leniently lexed) JSON number may contain. -/
def isNumChar (c : Char) : Bool :=
  c.isDigit || decide (c = '-') || decide (c = '+') || decide (c = '.')
    || decide (c = 'e') || decide (c = 'E')

/-- Hexadecimal digit test, for unicode escapes. -/
def isHexCh (c : Char) : Bool :=
  c.isDigit || (decide ('a' ≤ c) && decide (c ≤ 'f'))
    || (decide ('A' ≤ c) && decide (c ≤ 'F'))

/-- Numeric value of a hexadecimal digit. -/
def hexVal (c : Char) : Nat :=
  if c.isDigit then c.toNat - 48
  else if decide ('a' ≤ c) && decide (c ≤ 'f') then c.toNat - 87
  else if decide ('A' ≤ c) && decide (c ≤ 'F') then c.toNat - 55
  else 0

/-- Value of a list of hexadecimal digits, most significant first. -/
def hexNum (l : List Char) : Nat := l.foldl (fun a c => a * 16 + hexVal c) 0

/-- Decoding of a single-character JSON escape. -/
def escChar (c : Char) : Option Char :=
  if c = '"' then some '"'
  else if c = '\\' then some '\\'
  else if c = '/' then some '/'
  else if c = 'b' then some (Char.ofNat 8)
  else if c = 'f' then some (Char.ofNat 12)
  else if c = 'n' then some (Char.ofNat 10)
  else if c = 'r' then some (Char.ofNat 13)
  else if c = 't' then some (Char.ofNat 9)
  else none

/-- Parser mode of the flat-object JSON state machine.  String
accumulators are kept reversed. -/
inductive PMode where
  | start
  | keyOrEnd
  | inKey (acc : List Char)
  | inKeyEsc (acc : List Char)
  | inKeyUni (acc : List Char) (hex : List Char)
  | afterKey (k : String)
  | valueStart (k : String)
  | inStr (k : String) (acc : List Char)
  | inStrEsc (k : String) (acc : List Char)
  | inStrUni (k : String) (acc : List Char) (hex : List Char)
  | inNum (k : String) (acc : List Char)
  | afterValue
  | expectKey
  | done
  | err
deriving DecidableEq

/-- Parser state: the members recognised so far (reversed) and the current
mode. -/
structure PState where
  fields : List (String × JVal)
  mode : PMode
deriving DecidableEq

/-- One transition of the flat-object JSON state machine. -/
def pstep : PState → Char → PState
  | ⟨fs, PMode.start⟩, ch =>
    if isWs ch then ⟨fs, PMode.start⟩
    else if ch = openBrace then ⟨fs, PMode.keyOrEnd⟩
    else ⟨fs, PMode.err⟩
  | ⟨fs, PMode.keyOrEnd⟩, ch =>
    if isWs ch then ⟨fs, PMode.keyOrEnd⟩
    else if ch = '"' then ⟨fs, PMode.inKey []⟩
    else if ch = closeBrace then ⟨fs, PMode.done⟩
    else ⟨fs, PMode.err⟩
  | ⟨fs, PMode.inKey acc⟩, ch =>
    if ch = '"' then ⟨fs, PMode.afterKey (String.mk acc.reverse)⟩
    else if ch = '\\' then ⟨fs, PMode.inKeyEsc acc⟩
    else ⟨fs, PMode.inKey (ch :: acc)⟩
  | ⟨fs, PMode.inKeyEsc acc⟩, ch =>
    if ch = 'u' then ⟨fs, PMode.inKeyUni acc []⟩
    else
      match escChar ch with
      | some c => ⟨fs, PMode.inKey (c :: acc)⟩
      | none => ⟨fs, PMode.err⟩
  | ⟨fs, PMode.inKeyUni acc hex⟩, ch =>
    if isHexCh ch then
      if hex.length = 3 then
        ⟨fs, PMode.inKey (Char.ofNat (hexNum (hex ++ [ch])) :: acc)⟩
      else ⟨fs, PMode.inKeyUni acc (hex ++ [ch])⟩
    else ⟨fs, PMode.err⟩
  | ⟨fs, PMode.afterKey k⟩, ch =>
    if isWs ch then ⟨fs, PMode.afterKey k⟩
    else if ch = ':' then ⟨fs, PMode.valueStart k⟩
    else ⟨fs, PMode.err⟩
  | ⟨fs, PMode.valueStart k⟩, ch =>
    if isWs ch then ⟨fs, PMode.valueStart k⟩
    else if ch = '"' then ⟨fs, PMode.inStr k []⟩
    else if isNumChar ch then ⟨fs, PMode.inNum k [ch]⟩
    else ⟨fs, PMode.err⟩
  | ⟨fs, PMode.inStr k acc⟩, ch =>
    if ch = '"' then
      ⟨(k, JVal.str (String.mk acc.reverse)) :: fs, PMode.afterValue⟩
    else if ch = '\\' then ⟨fs, PMode.inStrEsc k acc⟩
    else ⟨fs, PMode.inStr k (ch :: acc)⟩
  | ⟨fs, PMode.inStrEsc k acc⟩, ch =>
    if ch = 'u' then ⟨fs, PMode.inStrUni k acc []⟩
    else
      match escChar ch with
      | some c => ⟨fs, PMode.inStr k (c :: acc)⟩
      | none => ⟨fs, PMode.err⟩
  | ⟨fs, PMode.inStrUni k acc hex⟩, ch =>
    if isHexCh ch then
      if hex.length = 3 then
        ⟨fs, PMode.inStr k (Char.ofNat (hexNum (hex ++ [ch])) :: acc)⟩
      else ⟨fs, PMode.inStrUni k acc (hex ++ [ch])⟩
    else ⟨fs, PMode.err⟩
  | ⟨fs, PMode.inNum k acc⟩, ch =>
    if isNumChar ch then ⟨fs, PMode.inNum k (ch :: acc)⟩
    else if ch = ',' then
      ⟨(k, JVal.num (String.mk acc.reverse)) :: fs, PMode.expectKey⟩
    else if ch = closeBrace then
      ⟨(k, JVal.num (String.mk acc.reverse)) :: fs, PMode.done⟩
    else if isWs ch then
      ⟨(k, JVal.num (String.mk acc.reverse)) :: fs, PMode.afterValue⟩
    else ⟨fs, PMode.err⟩
  | ⟨fs, PMode.afterValue⟩, ch =>
    if isWs ch then ⟨fs, PMode.afterValue⟩
    else if ch = ',' then ⟨fs, PMode.expectKey⟩
    else if ch = closeBrace then ⟨fs, PMode.done⟩
    else ⟨fs, PMode.err⟩
  | ⟨fs, PMode.expectKey⟩, ch =>
    if isWs ch then ⟨fs, PMode.expectKey⟩
    else if ch = '"' then ⟨fs, PMode.inKey []⟩
    else ⟨fs, PMode.err⟩
  | ⟨fs, PMode.done⟩, ch =>
    if isWs ch then ⟨fs, PMode.done⟩ else ⟨fs, PMode.err⟩
  | ⟨fs, PMode.err⟩, _ => ⟨fs, PMode.err⟩

/-- Parse a string as one flat JSON object; `some` of the member list in
source order when the whole input is such an object, `none` otherwise. -/
def parseJsonFlat (s : String) : Option (List (String × JVal)) :=
  let final := s.toList.foldl pstep ⟨[], PMode.start⟩
  match final.mode with
  | PMode.done => some final.fields.reverse
  | _ => none

/-- The agent identifiers that the unescaped `Sprintf` of `emitToKafka`
embeds verbatim without damaging the string literal around them. -/
def noJsonSpecial (s : String) : Bool :=
  s.toList.all fun c => decide (c ≠ '"') && decide (c ≠ '\\')

/- ----------------------------------------------------------------------
Helper lemmas.
---------------------------------------------------------------------- -/

/-- Every acknowledgment in a session trace is the `mkAck` of one of the
frames received on that session. -/
theorem streamLoop_acks_shape (evs : List StreamEvent) (st : RedisState) :
    ∀ r ∈ (streamLoop st evs).acks,
      ∃ c env, StreamEvent.frame c env ∈ evs ∧ r = mkAck c env := by
  induction evs generalizing st with
  | nil => intro r hr; simp [streamLoop] at hr
  | cons e rest ih =>
    intro r hr
    cases e with
    | recvErr => simp [streamLoop] at hr
    | frame c env =>
      cases hs : env.sendFail with
      | true =>
        simp [streamLoop, processFrame, hs] at hr
        exact ⟨c, env, by simp, hr⟩
      | false =>
        simp [streamLoop, processFrame, hs] at hr
        rcases hr with hr | hr
        · exact ⟨c, env, by simp, hr⟩
        · obtain ⟨c2, env2, hmem, heq⟩ := ih _ r hr
          exact ⟨c2, env2, by simp [hmem], heq⟩

/- ----------------------------------------------------------------------
Claims.
---------------------------------------------------------------------- -/

/-- Claim C1, counterexample.  The claim says an out-of-bounds frame
(latitude 200, longitude 300, negative velocity) is rejected with no
index-store upsert and no event-bus publish.  The code has no validation
branch: such a frame is upserted into the geospatial index, its publish is
attempted, and it is acknowledged. -/
theorem c1_counterexample :
    (streamLoop initRedis
        [StreamEvent.frame
          { carId := "CAR-OOB", latitude := 200, longitude := 300,
            batteryLevel := 50, velocity := -5, timestamp := 0 }
          { now := 0, now2 := 0, geoFail := false, hsetFail := false,
            kafkaFail := false, sendFail := false }]).published.length = 1 ∧
    (streamLoop initRedis
        [StreamEvent.frame
          { carId := "CAR-OOB", latitude := 200, longitude := 300,
            batteryLevel := 50, velocity := -5, timestamp := 0 }
          { now := 0, now2 := 0, geoFail := false, hsetFail := false,
            kafkaFail := false, sendFail := false }]).acks.length = 1 ∧
    (streamLoop initRedis
        [StreamEvent.frame
          { carId := "CAR-OOB", latitude := 200, longitude := 300,
            batteryLevel := 50, velocity := -5, timestamp := 0 }
          { now := 0, now2 := 0, geoFail := false, hsetFail := false,
            kafkaFail := false, sendFail := false }]).redis.geo
      fleetLocationsKey "CAR-OOB" = some (300, 200) := by
  refine ⟨?_, ?_, ?_⟩ <;>
    simp [streamLoop, processFrame, writeToRedis, initRedis, emitToKafka,
      fleetLocationsKey]

/-- Claim C1, amended: the gateway performs no bounds validation at all.
Every frame received on an authenticated session — whatever its latitude,
longitude, velocity or battery level, in bounds or not — is processed: the
event-bus publish is attempted, exactly one acknowledgment is produced, and
when the GEOADD succeeds the location is upserted into the index. -/
theorem c1_every_frame_processed (st : RedisState) (c : CarStatus)
    (env : FrameEnv) (hgeo : env.geoFail = false) :
    (streamLoop st [StreamEvent.frame c env]).published = [emitToKafka c] ∧
    (streamLoop st [StreamEvent.frame c env]).acks = [mkAck c env] ∧
    (streamLoop st [StreamEvent.frame c env]).redis.geo
        fleetLocationsKey c.carId = some (c.longitude, c.latitude) := by
  cases hs : env.sendFail <;> cases hh : env.hsetFail <;>
    simp [streamLoop, processFrame, writeToRedis, hgeo, hs, hh]

/-- Witness for `c1_every_frame_processed` at the in-bounds boundary frame
(battery 0, velocity 0). -/
theorem c1_witness :
    (streamLoop initRedis
        [StreamEvent.frame
          { carId := "CAR-001", latitude := 40.7234, longitude := -73.9876,
            batteryLevel := 0, velocity := 0, timestamp := 1701532800000 }
          { now := 7, now2 := 8, geoFail := false, hsetFail := false,
            kafkaFail := false, sendFail := false }]).published =
      [emitToKafka
        { carId := "CAR-001", latitude := 40.7234, longitude := -73.9876,
          batteryLevel := 0, velocity := 0, timestamp := 1701532800000 }] ∧
    (streamLoop initRedis
        [StreamEvent.frame
          { carId := "CAR-001", latitude := 40.7234, longitude := -73.9876,
            batteryLevel := 0, velocity := 0, timestamp := 1701532800000 }
          { now := 7, now2 := 8, geoFail := false, hsetFail := false,
            kafkaFail := false, sendFail := false }]).acks =
      [mkAck
        { carId := "CAR-001", latitude := 40.7234, longitude := -73.9876,
          batteryLevel := 0, velocity := 0, timestamp := 1701532800000 }
        { now := 7, now2 := 8, geoFail := false, hsetFail := false,
          kafkaFail := false, sendFail := false }] ∧
    (streamLoop initRedis
        [StreamEvent.frame
          { carId := "CAR-001", latitude := 40.7234, longitude := -73.9876,
            batteryLevel := 0, velocity := 0, timestamp := 1701532800000 }
          { now := 7, now2 := 8, geoFail := false, hsetFail := false,
            kafkaFail := false, sendFail := false }]).redis.geo
      fleetLocationsKey "CAR-001" = some (-73.9876, 40.7234) :=
  c1_every_frame_processed initRedis
    { carId := "CAR-001", latitude := 40.7234, longitude := -73.9876,
      batteryLevel := 0, velocity := 0, timestamp := 1701532800000 }
    { now := 7, now2 := 8, geoFail := false, hsetFail := false,
      kafkaFail := false, sendFail := false } rfl

/-- Claim C2: sessions without the shared secret in their metadata fail
with an Unauthenticated error before the stream handler runs — no frame
processed, the index store untouched, nothing published, nothing acked —
and sessions carrying the secret as first `x-api-token` value reach the
handler.  `validateToken md = none` characterises exactly the sessions
whose metadata carries the secret as first `x-api-token` value. -/
theorem c2_auth_gate (md : Option (String → List String)) (st : RedisState)
    (events : List StreamEvent) :
    ((authStreamInterceptor md st events).handlerRan
        = (validateToken md).isNone) ∧
    (validateToken md = none ↔
        ∃ m, md = some m ∧ (m xApiTokenKey).head? = some apiTokenValue) ∧
    (∀ e, validateToken md = some e →
        authErrCode e = GrpcCode.unauthenticated ∧
        (authStreamInterceptor md st events).handlerRan = false ∧
        (authStreamInterceptor md st events).authError = some e ∧
        (authStreamInterceptor md st events).trace.redis = st ∧
        (authStreamInterceptor md st events).trace.published = [] ∧
        (authStreamInterceptor md st events).trace.acks = []) ∧
    (validateToken md = none →
        (authStreamInterceptor md st events).handlerRan = true ∧
        (authStreamInterceptor md st events).trace = streamLoop st events) := by
  refine ⟨?_, ?_, ?_, ?_⟩
  · cases hv : validateToken md <;> simp [authStreamInterceptor, hv]
  · cases md with
    | none => simp [validateToken]
    | some m =>
      cases hm : m xApiTokenKey with
      | nil => simp [validateToken, hm]
      | cons t ts =>
        by_cases ht : t = apiTokenValue <;>
          simp [validateToken, hm, ht, authErrCode]
  · intro e he
    simp [authStreamInterceptor, he, authErrCode]
  · intro he
    simp [authStreamInterceptor, he]

/-- Witness for `c2_auth_gate`: a session with the secret reaches the
handler; a session with a wrong token is rejected unauthenticated with an
empty trace. -/
theorem c2_witness :
    (authStreamInterceptor
        (some fun k => if k = xApiTokenKey then [apiTokenValue] else [])
        initRedis []).handlerRan = true ∧
    authErrCode AuthErr.invalidToken = GrpcCode.unauthenticated ∧
    (authStreamInterceptor
        (some fun k => if k = xApiTokenKey then ["wrong-token"] else [])
        initRedis []).handlerRan = false ∧
    (authStreamInterceptor
        (some fun k => if k = xApiTokenKey then ["wrong-token"] else [])
        initRedis []).trace.published = [] ∧
    (authStreamInterceptor
        (some fun k => if k = xApiTokenKey then ["wrong-token"] else [])
        initRedis []).trace.acks = [] := by
  have hgood := (c2_auth_gate
    (some fun k => if k = xApiTokenKey then [apiTokenValue] else [])
    initRedis []).2.2.2 (by simp [validateToken])
  have hbad := (c2_auth_gate
    (some fun k => if k = xApiTokenKey then ["wrong-token"] else [])
    initRedis []).2.2.1 AuthErr.invalidToken
    (by simp [validateToken, apiTokenValue])
  exact ⟨hgood.1, hbad.1, hbad.2.1, hbad.2.2.2.2.1, hbad.2.2.2.2.2⟩

/-- Claim C3: for a frame received on an authenticated session, the
index-store write and the bus publish are attempted independently of each
other's outcome (the Kafka message appears for every value of the Redis
failure flags, and the Redis write is attempted for every value of the
Kafka flag), exactly one acknowledgment is prepended for the frame, and the
loop continues with the remaining events whatever the two downstream
outcomes were. -/
theorem c3_dual_write_independent (st : RedisState) (c : CarStatus)
    (env : FrameEnv) (rest : List StreamEvent)
    (hsend : env.sendFail = false) :
    streamLoop st (StreamEvent.frame c env :: rest) =
      { redis := (streamLoop (writeToRedis st c env.geoFail env.hsetFail).1
          rest).redis,
        published := emitToKafka c ::
          (streamLoop (writeToRedis st c env.geoFail env.hsetFail).1
            rest).published,
        acks := mkAck c env ::
          (streamLoop (writeToRedis st c env.geoFail env.hsetFail).1
            rest).acks } := by
  simp [streamLoop, processFrame, hsend]

/-- Witness for `c3_dual_write_independent`: a frame whose Redis write and
Kafka publish both fail is still published-attempted, acked once, and the
loop goes on to the next event. -/
theorem c3_witness :
    streamLoop initRedis
        (StreamEvent.frame
          { carId := "CAR-002", latitude := 1, longitude := 2,
            batteryLevel := 3, velocity := 4, timestamp := 5 }
          { now := 0, now2 := 0, geoFail := true, hsetFail := true,
            kafkaFail := true, sendFail := false } :: [StreamEvent.recvErr]) =
      { redis := (streamLoop (writeToRedis initRedis
          { carId := "CAR-002", latitude := 1, longitude := 2,
            batteryLevel := 3, velocity := 4, timestamp := 5 } true true).1
          [StreamEvent.recvErr]).redis,
        published := emitToKafka
          { carId := "CAR-002", latitude := 1, longitude := 2,
            batteryLevel := 3, velocity := 4, timestamp := 5 } ::
          (streamLoop (writeToRedis initRedis
            { carId := "CAR-002", latitude := 1, longitude := 2,
              batteryLevel := 3, velocity := 4, timestamp := 5 } true true).1
            [StreamEvent.recvErr]).published,
        acks := mkAck
          { carId := "CAR-002", latitude := 1, longitude := 2,
            batteryLevel := 3, velocity := 4, timestamp := 5 }
          { now := 0, now2 := 0, geoFail := true, hsetFail := true,
            kafkaFail := true, sendFail := false } ::
          (streamLoop (writeToRedis initRedis
            { carId := "CAR-002", latitude := 1, longitude := 2,
              batteryLevel := 3, velocity := 4, timestamp := 5 } true true).1
            [StreamEvent.recvErr]).acks } :=
  c3_dual_write_independent initRedis
    { carId := "CAR-002", latitude := 1, longitude := 2,
      batteryLevel := 3, velocity := 4, timestamp := 5 }
    { now := 0, now2 := 0, geoFail := true, hsetFail := true,
      kafkaFail := true, sendFail := false } [StreamEvent.recvErr] rfl

/-- Claim C5: an accepted frame upserts the agent's location into the
geospatial index under `fleet:locations` keyed by the agent id with the
frame's longitude/latitude, and writes the metadata hash `car:{id}` holding
exactly the frame's battery, velocity and timestamp; a later frame for the
same agent overwrites both entries (last-write-wins, no history). -/
theorem c5_positional_record (st : RedisState) (a b : CarStatus)
    (hid : b.carId = a.carId) :
    ((writeToRedis st a false false).1.geo fleetLocationsKey a.carId
        = some (a.longitude, a.latitude)) ∧
    ((writeToRedis st a false false).1.hashes (carHashKey a.carId)
        = some { battery := a.batteryLevel, velocity := a.velocity,
                 timestamp := a.timestamp }) ∧
    ((writeToRedis (writeToRedis st a false false).1 b false false).1.geo
        fleetLocationsKey a.carId = some (b.longitude, b.latitude)) ∧
    ((writeToRedis (writeToRedis st a false false).1 b false false).1.hashes
        (carHashKey a.carId)
        = some { battery := b.batteryLevel, velocity := b.velocity,
                 timestamp := b.timestamp }) := by
  refine ⟨?_, ?_, ?_, ?_⟩ <;> simp [writeToRedis, hid]

/-- Witness for `c5_positional_record` at the spec's end-to-end example
frame, followed by a second frame of the same agent. -/
theorem c5_witness :
    ((writeToRedis initRedis
        { carId := "CAR-001", latitude := 40.7234, longitude := -73.9876,
          batteryLevel := 85.3, velocity := 45.2,
          timestamp := 1701532800000 } false false).1.geo fleetLocationsKey
        "CAR-001" = some (-73.9876, 40.7234)) ∧
    ((writeToRedis initRedis
        { carId := "CAR-001", latitude := 40.7234, longitude := -73.9876,
          batteryLevel := 85.3, velocity := 45.2,
          timestamp := 1701532800000 } false false).1.hashes
        (carHashKey "CAR-001")
        = some { battery := 85.3, velocity := 45.2,
                 timestamp := 1701532800000 }) ∧
    ((writeToRedis (writeToRedis initRedis
        { carId := "CAR-001", latitude := 40.7234, longitude := -73.9876,
          batteryLevel := 85.3, velocity := 45.2,
          timestamp := 1701532800000 } false false).1
        { carId := "CAR-001", latitude := 40.8, longitude := -73.9,
          batteryLevel := 80, velocity := 30,
          timestamp := 1701532801000 } false false).1.geo fleetLocationsKey
        "CAR-001" = some (-73.9, 40.8)) ∧
    ((writeToRedis (writeToRedis initRedis
        { carId := "CAR-001", latitude := 40.7234, longitude := -73.9876,
          batteryLevel := 85.3, velocity := 45.2,
          timestamp := 1701532800000 } false false).1
        { carId := "CAR-001", latitude := 40.8, longitude := -73.9,
          batteryLevel := 80, velocity := 30,
          timestamp := 1701532801000 } false false).1.hashes
        (carHashKey "CAR-001")
        = some { battery := 80, velocity := 30,
                 timestamp := 1701532801000 }) :=
  c5_positional_record initRedis
    { carId := "CAR-001", latitude := 40.7234, longitude := -73.9876,
      batteryLevel := 85.3, velocity := 45.2, timestamp := 1701532800000 }
    { carId := "CAR-001", latitude := 40.8, longitude := -73.9,
      batteryLevel := 80, velocity := 30, timestamp := 1701532801000 } rfl

/-- Claim C6: `writeToRedis` returns an error exactly when the GEOADD
fails; the HSET result is discarded, so its failure changes nothing the
caller can see (same returned error as for a succeeding HSET), and the
frame is still acknowledged with the usual acknowledgment. -/
theorem c6_hset_result_discarded (st : RedisState) (c : CarStatus)
    (gF hF : Bool) :
    ((writeToRedis st c gF hF).2
        = if gF then some RedisErr.geoAddFailed else none) ∧
    (writeToRedis st c gF hF).2 = (writeToRedis st c gF false).2 ∧
    (∀ env : FrameEnv,
        (streamLoop st [StreamEvent.frame c env]).acks = [mkAck c env]) := by
  refine ⟨?_, ?_, ?_⟩
  · cases gF <;> simp [writeToRedis]
  · cases gF <;> simp [writeToRedis]
  · intro env
    cases hs : env.sendFail <;> simp [streamLoop, processFrame, hs]

/-- Claim C7: every acknowledgment sent on a session belongs to one of the
received frames; its correlation identifier is the generated string
`ack-{agent id}-{send timestamp}` and its agent-id field equals the
received frame's agent identifier. -/
theorem c7_ack_correlation (st : RedisState) (evs : List StreamEvent)
    (r : BookingResponse) (hr : r ∈ (streamLoop st evs).acks) :
    ∃ c env, StreamEvent.frame c env ∈ evs ∧
      r.bookingId = "ack-" ++ c.carId ++ "-" ++ fmtInt env.now ∧
      r.carId = c.carId := by
  obtain ⟨c, env, hmem, rfl⟩ := streamLoop_acks_shape evs st r hr
  exact ⟨c, env, hmem, rfl, rfl⟩

/-- Witness for `c7_ack_correlation` on a one-frame session. -/
theorem c7_witness :
    ∃ c env,
      StreamEvent.frame c env ∈
        [StreamEvent.frame
          { carId := "CAR-007", latitude := 1, longitude := 1,
            batteryLevel := 60, velocity := 10, timestamp := 42 }
          { now := 1700000000000, now2 := 1700000000001, geoFail := false,
            hsetFail := false, kafkaFail := false, sendFail := false }] ∧
      (mkAck
        { carId := "CAR-007", latitude := 1, longitude := 1,
          batteryLevel := 60, velocity := 10, timestamp := 42 }
        { now := 1700000000000, now2 := 1700000000001, geoFail := false,
          hsetFail := false, kafkaFail := false,
          sendFail := false }).bookingId
        = "ack-" ++ c.carId ++ "-" ++ fmtInt env.now ∧
      (mkAck
        { carId := "CAR-007", latitude := 1, longitude := 1,
          batteryLevel := 60, velocity := 10, timestamp := 42 }
        { now := 1700000000000, now2 := 1700000000001, geoFail := false,
          hsetFail := false, kafkaFail := false,
          sendFail := false }).carId = c.carId :=
  c7_ack_correlation initRedis
    [StreamEvent.frame
      { carId := "CAR-007", latitude := 1, longitude := 1,
        batteryLevel := 60, velocity := 10, timestamp := 42 }
      { now := 1700000000000, now2 := 1700000000001, geoFail := false,
        hsetFail := false, kafkaFail := false, sendFail := false }]
    (mkAck
      { carId := "CAR-007", latitude := 1, longitude := 1,
        batteryLevel := 60, velocity := 10, timestamp := 42 }
      { now := 1700000000000, now2 := 1700000000001, geoFail := false,
        hsetFail := false, kafkaFail := false, sendFail := false })
    (by simp [streamLoop, processFrame])

/-- Claim C8: the acknowledgment's status and message are constants — every
acknowledgment of every session carries status `BOOKING_UNKNOWN` and the
message "Telemetry received", whatever the frame's values and whatever the
downstream failure flags were, so the status never distinguishes a stored
frame from a lost one. -/
theorem c8_ack_constant (st : RedisState) (evs : List StreamEvent)
    (r : BookingResponse) (hr : r ∈ (streamLoop st evs).acks) :
    r.status = BookingStatus.BOOKING_UNKNOWN ∧
      r.message = "Telemetry received" := by
  obtain ⟨c, env, _, rfl⟩ := streamLoop_acks_shape evs st r hr
  exact ⟨rfl, rfl⟩

/-- Witness for `c8_ack_constant` on a session whose downstream writes all
failed. -/
theorem c8_witness :
    (mkAck
      { carId := "CAR-008", latitude := 2, longitude := 3,
        batteryLevel := 99, velocity := 0, timestamp := 9 }
      { now := 5, now2 := 6, geoFail := true, hsetFail := true,
        kafkaFail := true, sendFail := false }).status
        = BookingStatus.BOOKING_UNKNOWN ∧
    (mkAck
      { carId := "CAR-008", latitude := 2, longitude := 3,
        batteryLevel := 99, velocity := 0, timestamp := 9 }
      { now := 5, now2 := 6, geoFail := true, hsetFail := true,
        kafkaFail := true, sendFail := false }).message
        = "Telemetry received" :=
  c8_ack_constant initRedis
    [StreamEvent.frame
      { carId := "CAR-008", latitude := 2, longitude := 3,
        batteryLevel := 99, velocity := 0, timestamp := 9 }
      { now := 5, now2 := 6, geoFail := true, hsetFail := true,
        kafkaFail := true, sendFail := false }]
    (mkAck
      { carId := "CAR-008", latitude := 2, longitude := 3,
        batteryLevel := 99, velocity := 0, timestamp := 9 }
      { now := 5, now2 := 6, geoFail := true, hsetFail := true,
        kafkaFail := true, sendFail := false })
    (by simp [streamLoop, processFrame])

/-- Claim C9: every pricing response exposes a price that is an integer
number of hundredths (rounded to two decimal places by the oracle itself),
a load tier among exactly Low, Medium, High, an energy-source tag that is
one of the service's three tag strings, and the hour of day it was given.
-/
theorem c9_pricing_response_shape (hour : ℤ) (sinVal : ℚ) (nowMs : ℤ) :
    (∃ k : ℤ, (handlePricing hour sinVal nowMs).pricePerKwh = (k : ℚ) / 100) ∧
    ((handlePricing hour sinVal nowMs).gridLoad = "Low" ∨
      (handlePricing hour sinVal nowMs).gridLoad = "Medium" ∨
      (handlePricing hour sinVal nowMs).gridLoad = "High") ∧
    ((handlePricing hour sinVal nowMs).energySource = "Solar" ∨
      (handlePricing hour sinVal nowMs).energySource = "Wind" ∨
      (handlePricing hour sinVal nowMs).energySource = "Grid") ∧
    (handlePricing hour sinVal nowMs).hour = hour := by
  refine ⟨⟨_, rfl⟩, ?_, ?_, rfl⟩
  · unfold handlePricing
    dsimp only
    split
    · simp
    · split <;> simp
  · unfold handlePricing
    dsimp only
    split
    · simp
    · split <;> simp

/- ----------------------------------------------------------------------
Lemmas about the decimal formatter and the JSON state machine, leading to
the characterisation of the payload emitted by `emitToKafka`.
---------------------------------------------------------------------- -/

theorem toList_append (s t : String) : (s ++ t).toList = s.toList ++ t.toList :=
  rfl

theorem digitChar_isNumChar (d : Nat) : isNumChar (digitChar d) = true := by
  unfold digitChar
  repeat' split
  all_goals decide

theorem natDigitsAux_all_num (fuel : Nat) :
    ∀ n, ∀ c ∈ natDigitsAux fuel n, isNumChar c = true := by
  induction fuel with
  | zero => intro n c hc; simp [natDigitsAux] at hc
  | succ fuel ih =>
    intro n c hc
    rw [natDigitsAux] at hc
    by_cases hn : n < 10
    · rw [if_pos hn] at hc
      simp at hc
      subst hc
      exact digitChar_isNumChar n
    · rw [if_neg hn] at hc
      rcases List.mem_append.mp hc with hc | hc
      · exact ih _ c hc
      · simp at hc
        subst hc
        exact digitChar_isNumChar (n % 10)

theorem natDigitsAux_ne_nil (fuel n : Nat) : natDigitsAux (fuel + 1) n ≠ [] := by
  rw [natDigitsAux]
  by_cases hn : n < 10
  · rw [if_pos hn]; simp
  · rw [if_neg hn]; simp

theorem fmtNat_all_num (n : Nat) :
    ∀ c ∈ (fmtNat n).toList, isNumChar c = true := by
  intro c hc
  exact natDigitsAux_all_num (n + 1) n c hc

theorem fmtInt_all_num (i : ℤ) :
    ∀ c ∈ (fmtInt i).toList, isNumChar c = true := by
  intro c hc
  rw [fmtInt, toList_append] at hc
  rcases List.mem_append.mp hc with hc | hc
  · by_cases hi : i < 0
    · rw [if_pos hi] at hc
      have h1 : c = '-' := List.mem_singleton.mp hc
      subst h1; decide
    · rw [if_neg hi] at hc
      exact absurd (hc : c ∈ ([] : List Char)) (List.not_mem_nil c)
  · exact fmtNat_all_num i.natAbs c hc

theorem fmtInt_ne_nil (i : ℤ) : (fmtInt i).toList ≠ [] := by
  intro h
  rw [fmtInt, toList_append] at h
  rcases List.append_eq_nil.mp h with ⟨-, h2⟩
  exact natDigitsAux_ne_nil i.natAbs i.natAbs h2

theorem padZeros_all_num (l : List Char) (n : Nat)
    (h : ∀ c ∈ l, isNumChar c = true) :
    ∀ c ∈ padZeros l n, isNumChar c = true := by
  intro c hc
  rcases List.mem_append.mp hc with hc | hc
  · rw [List.eq_of_mem_replicate hc]; decide
  · exact h c hc

theorem fmtFixed_all_num (prec : Nat) (q : ℚ) :
    ∀ c ∈ (fmtFixed prec q).toList, isNumChar c = true := by
  intro c hc
  rw [fmtFixed] at hc
  simp only [toList_append] at hc
  rcases List.mem_append.mp hc with hc | hc
  · rcases List.mem_append.mp hc with hc | hc
    · rcases List.mem_append.mp hc with hc | hc
      · by_cases hs : q.num < 0 ∧ roundAwayNat (q.num.natAbs * 10 ^ prec) q.den ≠ 0
        · rw [if_pos hs] at hc
          have h1 : c = '-' := List.mem_singleton.mp hc
          subst h1; decide
        · rw [if_neg hs] at hc
          exact absurd (hc : c ∈ ([] : List Char)) (List.not_mem_nil c)
      · exact fmtNat_all_num _ c hc
    · have h1 : c = '.' := List.mem_singleton.mp hc
      subst h1; decide
  · exact padZeros_all_num _ prec (natDigitsAux_all_num _ _) c hc

theorem fmtFixed_ne_nil (prec : Nat) (q : ℚ) : (fmtFixed prec q).toList ≠ [] := by
  intro h
  rw [fmtFixed] at h
  simp only [toList_append] at h
  rcases List.append_eq_nil.mp h with ⟨h1, -⟩
  rcases List.append_eq_nil.mp h1 with ⟨h2, -⟩
  rcases List.append_eq_nil.mp h2 with ⟨-, h3⟩
  exact natDigitsAux_ne_nil _ _ h3

theorem isWs_false_of_isNumChar (c : Char) (h : isNumChar c = true) :
    isWs c = false := by
  by_contra hw
  rw [Bool.not_eq_false] at hw
  simp only [isWs, Bool.or_eq_true, decide_eq_true_eq] at hw
  rcases hw with ((h1 | h1) | h1) | h1 <;> subst h1 <;>
    exact absurd h (by decide)

theorem ne_quote_of_isNumChar (c : Char) (h : isNumChar c = true) :
    ¬(c = '"') := by
  intro h1
  subst h1
  exact absurd h (by decide)

theorem fold_inStr_safe (l : List Char) :
    ∀ fs k acc, (∀ c ∈ l, c ≠ '"' ∧ c ≠ '\\') →
      List.foldl pstep ⟨fs, PMode.inStr k acc⟩ l
        = ⟨fs, PMode.inStr k (l.reverse ++ acc)⟩ := by
  induction l with
  | nil => intro fs k acc _; simp
  | cons c l ih =>
    intro fs k acc h
    obtain ⟨hq, hb⟩ := h c (List.mem_cons_self c l)
    have hstep : pstep ⟨fs, PMode.inStr k acc⟩ c = ⟨fs, PMode.inStr k (c :: acc)⟩ := by
      simp [pstep, hq, hb]
    rw [List.foldl_cons, hstep, ih fs k (c :: acc) fun d hd => h d (List.mem_cons_of_mem c hd)]
    simp

theorem fold_inNum_run (l : List Char) :
    ∀ fs k acc, (∀ c ∈ l, isNumChar c = true) →
      List.foldl pstep ⟨fs, PMode.inNum k acc⟩ l
        = ⟨fs, PMode.inNum k (l.reverse ++ acc)⟩ := by
  induction l with
  | nil => intro fs k acc _; simp
  | cons c l ih =>
    intro fs k acc h
    have hn := h c (List.mem_cons_self c l)
    have hstep : pstep ⟨fs, PMode.inNum k acc⟩ c = ⟨fs, PMode.inNum k (c :: acc)⟩ := by
      simp [pstep, hn]
    rw [List.foldl_cons, hstep, ih fs k (c :: acc) fun d hd => h d (List.mem_cons_of_mem c hd)]
    simp

theorem fold_valueStart_num (l : List Char) (fs : List (String × JVal))
    (k : String) (hne : l ≠ []) (h : ∀ c ∈ l, isNumChar c = true) :
    List.foldl pstep ⟨fs, PMode.valueStart k⟩ l = ⟨fs, PMode.inNum k l.reverse⟩ := by
  cases l with
  | nil => exact absurd rfl hne
  | cons c l =>
    have hn := h c (List.mem_cons_self c l)
    have hstep : pstep ⟨fs, PMode.valueStart k⟩ c = ⟨fs, PMode.inNum k [c]⟩ := by
      simp [pstep, isWs_false_of_isNumChar c hn, ne_quote_of_isNumChar c hn, hn]
    rw [List.foldl_cons, hstep,
      fold_inNum_run l fs k [c] fun d hd => h d (List.mem_cons_of_mem c hd)]
    simp

/-- The constant character chunks of the `emitToKafka` format string. -/
def litCarId : List Char :=
  [openBrace, '"', 'c', 'a', 'r', '_', 'i', 'd', '"', ':', '"']

def litLat : List Char := ['"', ',', '"', 'l', 'a', 't', '"', ':']

def litLon : List Char := [',', '"', 'l', 'o', 'n', '"', ':']

def litBattery : List Char :=
  [',', '"', 'b', 'a', 't', 't', 'e', 'r', 'y', '"', ':']

def litVelocity : List Char :=
  [',', '"', 'v', 'e', 'l', 'o', 'c', 'i', 't', 'y', '"', ':']

def litTimestamp : List Char :=
  [',', '"', 't', 'i', 'm', 'e', 's', 't', 'a', 'm', 'p', '"', ':']

def litEventType : List Char :=
  [',', '"', 'e', 'v', 'e', 'n', 't', '_', 't', 'y', 'p', 'e', '"', ':', '"',
   't', 'e', 'l', 'e', 'm', 'e', 't', 'r', 'y', '"', closeBrace]

theorem emitValue_toList (c : CarStatus) :
    (emitValue c).toList =
      litCarId ++ c.carId.toList ++ litLat ++ (fmtFixed 6 c.latitude).toList
        ++ litLon ++ (fmtFixed 6 c.longitude).toList
        ++ litBattery ++ (fmtFixed 2 c.batteryLevel).toList
        ++ litVelocity ++ (fmtFixed 2 c.velocity).toList
        ++ litTimestamp ++ (fmtInt c.timestamp).toList
        ++ litEventType := rfl

theorem fold_litCarId :
    List.foldl pstep ⟨[], PMode.start⟩ litCarId
      = ⟨[], PMode.inStr "car_id" []⟩ := rfl

theorem fold_litLat (fs : List (String × JVal)) (k : String) (acc : List Char) :
    List.foldl pstep ⟨fs, PMode.inStr k acc⟩ litLat
      = ⟨(k, JVal.str (String.mk acc.reverse)) :: fs, PMode.valueStart "lat"⟩ := rfl

theorem fold_litLon (fs : List (String × JVal)) (k : String) (acc : List Char) :
    List.foldl pstep ⟨fs, PMode.inNum k acc⟩ litLon
      = ⟨(k, JVal.num (String.mk acc.reverse)) :: fs, PMode.valueStart "lon"⟩ := rfl

theorem fold_litBattery (fs : List (String × JVal)) (k : String) (acc : List Char) :
    List.foldl pstep ⟨fs, PMode.inNum k acc⟩ litBattery
      = ⟨(k, JVal.num (String.mk acc.reverse)) :: fs, PMode.valueStart "battery"⟩ := rfl

theorem fold_litVelocity (fs : List (String × JVal)) (k : String) (acc : List Char) :
    List.foldl pstep ⟨fs, PMode.inNum k acc⟩ litVelocity
      = ⟨(k, JVal.num (String.mk acc.reverse)) :: fs, PMode.valueStart "velocity"⟩ := rfl

theorem fold_litTimestamp (fs : List (String × JVal)) (k : String) (acc : List Char) :
    List.foldl pstep ⟨fs, PMode.inNum k acc⟩ litTimestamp
      = ⟨(k, JVal.num (String.mk acc.reverse)) :: fs, PMode.valueStart "timestamp"⟩ := rfl

theorem fold_litEventType (fs : List (String × JVal)) (k : String) (acc : List Char) :
    List.foldl pstep ⟨fs, PMode.inNum k acc⟩ litEventType
      = ⟨("event_type", JVal.str "telemetry") ::
          (k, JVal.num (String.mk acc.reverse)) :: fs, PMode.done⟩ := rfl

/-- For an agent id free of double-quote and backslash, the payload built
by `emitToKafka` parses as a flat JSON object with exactly the seven
fields of the wire format. -/
theorem parse_emitValue_safe (c : CarStatus)
    (hid : ∀ ch ∈ c.carId.toList, ch ≠ '"' ∧ ch ≠ '\\') :
    parseJsonFlat (emitValue c) =
      some [("car_id", JVal.str c.carId),
            ("lat", JVal.num (fmtFixed 6 c.latitude)),
            ("lon", JVal.num (fmtFixed 6 c.longitude)),
            ("battery", JVal.num (fmtFixed 2 c.batteryLevel)),
            ("velocity", JVal.num (fmtFixed 2 c.velocity)),
            ("timestamp", JVal.num (fmtInt c.timestamp)),
            ("event_type", JVal.str "telemetry")] := by
  unfold parseJsonFlat
  rw [emitValue_toList c]
  simp only [List.foldl_append]
  rw [fold_litCarId,
    fold_inStr_safe c.carId.toList [] "car_id" [] hid,
    fold_litLat,
    fold_valueStart_num (fmtFixed 6 c.latitude).toList _ _
      (fmtFixed_ne_nil 6 c.latitude) (fmtFixed_all_num 6 c.latitude),
    fold_litLon,
    fold_valueStart_num (fmtFixed 6 c.longitude).toList _ _
      (fmtFixed_ne_nil 6 c.longitude) (fmtFixed_all_num 6 c.longitude),
    fold_litBattery,
    fold_valueStart_num (fmtFixed 2 c.batteryLevel).toList _ _
      (fmtFixed_ne_nil 2 c.batteryLevel) (fmtFixed_all_num 2 c.batteryLevel),
    fold_litVelocity,
    fold_valueStart_num (fmtFixed 2 c.velocity).toList _ _
      (fmtFixed_ne_nil 2 c.velocity) (fmtFixed_all_num 2 c.velocity),
    fold_litTimestamp,
    fold_valueStart_num (fmtInt c.timestamp).toList _ _
      (fmtInt_ne_nil c.timestamp) (fmtInt_all_num c.timestamp),
    fold_litEventType]
  simp only [List.append_nil, List.reverse_reverse]
  rfl

theorem noJsonSpecial_chars (s : String) (h : noJsonSpecial s = true) :
    ∀ ch ∈ s.toList, ch ≠ '"' ∧ ch ≠ '\\' := by
  intro ch hch
  have hc := List.all_eq_true.mp h ch hch
  simpa [Bool.and_eq_true, decide_eq_true_eq] using hc

/-- Claim C4, counterexample.  For the agent id `x"` — one double-quote
character — the published value is not a valid JSON object at all, so it is
in particular not a JSON object with exactly the seven wire-format
fields. -/
theorem c4_counterexample :
    parseJsonFlat (emitValue
      { carId := "x\"", latitude := 0, longitude := 0, batteryLevel := 0,
        velocity := 0, timestamp := 0 }) = none := rfl

/-- Claim C4, amended: every published message is keyed by the frame's
agent identifier, and whenever the agent id contains no double-quote and no
backslash the value is a JSON object with exactly the fields car_id (the
agent id), lat, lon, battery, velocity (the frame's values rendered to
six/two decimal places), timestamp (the frame's integer milliseconds) and
event_type = "telemetry"; ids containing JSON-special characters can break
this (see the counterexample). -/
theorem c4_wire_format (c : CarStatus) :
    (emitToKafka c).key = c.carId ∧
    (noJsonSpecial c.carId = true →
      parseJsonFlat ((emitToKafka c).value) =
        some [("car_id", JVal.str c.carId),
              ("lat", JVal.num (fmtFixed 6 c.latitude)),
              ("lon", JVal.num (fmtFixed 6 c.longitude)),
              ("battery", JVal.num (fmtFixed 2 c.batteryLevel)),
              ("velocity", JVal.num (fmtFixed 2 c.velocity)),
              ("timestamp", JVal.num (fmtInt c.timestamp)),
              ("event_type", JVal.str "telemetry")]) :=
  ⟨rfl, fun h => parse_emitValue_safe c (noJsonSpecial_chars c.carId h)⟩

/-- Witness for `c4_wire_format`: the key equality at an agent id that does
contain a double-quote, and both conjuncts — with the value-side
hypothesis discharged — at the spec's end-to-end example frame. -/
theorem c4_witness :
    (emitToKafka
      { carId := "x\"y", latitude := 0, longitude := 0, batteryLevel := 0,
        velocity := 0, timestamp := 0 }).key = "x\"y" ∧
    (emitToKafka
      { carId := "CAR-001", latitude := 40.7234, longitude := -73.9876,
        batteryLevel := 85.3, velocity := 45.2,
        timestamp := 1701532800000 }).key = "CAR-001" ∧
    parseJsonFlat ((emitToKafka
      { carId := "CAR-001", latitude := 40.7234, longitude := -73.9876,
        batteryLevel := 85.3, velocity := 45.2,
        timestamp := 1701532800000 }).value) =
      some [("car_id", JVal.str "CAR-001"),
            ("lat", JVal.num (fmtFixed 6 (40.7234 : ℚ))),
            ("lon", JVal.num (fmtFixed 6 (-73.9876 : ℚ))),
            ("battery", JVal.num (fmtFixed 2 (85.3 : ℚ))),
            ("velocity", JVal.num (fmtFixed 2 (45.2 : ℚ))),
            ("timestamp", JVal.num (fmtInt (1701532800000 : ℤ))),
            ("event_type", JVal.str "telemetry")] :=
  ⟨(c4_wire_format
      { carId := "x\"y", latitude := 0, longitude := 0, batteryLevel := 0,
        velocity := 0, timestamp := 0 }).1,
   (c4_wire_format
      { carId := "CAR-001", latitude := 40.7234, longitude := -73.9876,
        batteryLevel := 85.3, velocity := 45.2,
        timestamp := 1701532800000 }).1,
   (c4_wire_format
      { carId := "CAR-001", latitude := 40.7234, longitude := -73.9876,
        batteryLevel := 85.3, velocity := 45.2,
        timestamp := 1701532800000 }).2 rfl⟩

/-- Claim C10, counterexample.  The claim's "any identifier containing a
double-quote or backslash yields a non-JSON message" (equivalently, the
value is well-formed only when the id has no JSON-special characters) is
false: the id consisting of a backslash followed by a double-quote contains
both special characters, yet the formatted value happens to be a perfectly
valid JSON object — whose car_id field then differs from the agent id. -/
theorem c10_counterexample :
    noJsonSpecial "\\\"" = false ∧
    parseJsonFlat (emitValue
      { carId := "\\\"", latitude := 0, longitude := 0, batteryLevel := 0,
        velocity := 0, timestamp := 0 }) =
      some [("car_id", JVal.str "\""), ("lat", JVal.num "0.000000"),
            ("lon", JVal.num "0.000000"), ("battery", JVal.num "0.00"),
            ("velocity", JVal.num "0.00"), ("timestamp", JVal.num "0"),
            ("event_type", JVal.str "telemetry")] := ⟨rfl, rfl⟩

/-- Claim C10, amended: the value is built by plain string formatting with
no escaping of the agent identifier, so for some agent identifier
containing a double-quote (here `EV"9`) the published message is not a
valid JSON object, while every agent id free of double-quote and backslash
yields a well-formed JSON object.  (Well-formedness does not hold *only*
for special-character-free ids: see the counterexample.) -/
theorem c10_unescaped_id (c : CarStatus) (h : noJsonSpecial c.carId = true) :
    (parseJsonFlat (emitValue c)).isSome = true ∧
    parseJsonFlat (emitValue
      { carId := "EV\"9", latitude := 1, longitude := 2, batteryLevel := 3,
        velocity := 4, timestamp := 5 }) = none := by
  refine ⟨?_, rfl⟩
  rw [parse_emitValue_safe c (noJsonSpecial_chars c.carId h)]
  rfl

/-- Witness for `c10_unescaped_id` at a quote-free agent id. -/
theorem c10_witness :
    (parseJsonFlat (emitValue
      { carId := "EV-42", latitude := 12.5, longitude := -3.25,
        batteryLevel := 100, velocity := 0, timestamp := 1700000000123 })).isSome
        = true ∧
    parseJsonFlat (emitValue
      { carId := "EV\"9", latitude := 1, longitude := 2, batteryLevel := 3,
        velocity := 4, timestamp := 5 }) = none :=
  c10_unescaped_id
    { carId := "EV-42", latitude := 12.5, longitude := -3.25,
      batteryLevel := 100, velocity := 0, timestamp := 1700000000123 }
    rfl
